import Mathlib

/-!
Shallow embedding of the PrimeCell decision-engine sources.

JavaScript `number` values are modelled as rationals (ℚ); `Math.round`,
`Math.sign`, `Math.max`, `Math.min` are modelled explicitly.  String
messages (reasons, violation texts) carry no numeric content; violation
and warning lists are modelled as lists of tags, one tag per `push` site,
so that "the result contains a violation" is faithfully expressible.
-/

namespace PrimeCell

/-- JavaScript `Math.round`: nearest integer, ties toward +∞ (`⌊x + 1/2⌋`). -/
def jround (q : ℚ) : ℤ := ⌊q + 1/2⌋

/-- JavaScript `Math.sign`: −1, 0 or 1. -/
def jsign (q : ℚ) : ℚ := if 0 < q then 1 else if q < 0 then -1 else 0

/-- JavaScript `parseFloat(x.toFixed(2))`: round to two decimal places. -/
def roundTo2 (q : ℚ) : ℚ := (jround (q * 100) : ℚ) / 100

/-- `gender: 'male' | 'female'` -/
inductive Gender | male | female
deriving DecidableEq, Repr

/-- `goal: 'weight_loss' | 'maintenance' | 'muscle_gain'` -/
inductive Goal | weight_loss | maintenance | muscle_gain
deriving DecidableEq, Repr

/-- `activityLevel: 'sedentary' | 'light' | 'moderate' | 'active' | 'very_active'` -/
inductive ActivityLevel | sedentary | light | moderate | active | very_active
deriving DecidableEq, Repr

/-! ## tdee.calculator (src/unnamed/part_007) -/

/-- `TDEEInput` -/
structure TDEEInput where
  weight : ℚ
  height : ℚ
  age : ℚ
  gender : Gender
  activityLevel : ActivityLevel
deriving Repr

/-- `TDEEResult` -/
structure TDEEResult where
  bmr : ℤ
  tdee : ℤ
  activityMultiplier : ℚ
deriving Repr

/-- `ACTIVITY_MULTIPLIERS` lookup table. -/
def ACTIVITY_MULTIPLIERS : ActivityLevel → ℚ
  | .sedentary => 1.2
  | .light => 1.375
  | .moderate => 1.55
  | .active => 1.725
  | .very_active => 1.9

/-- `calculateBMR`: Mifflin-St Jeor, rounded. -/
def calculateBMR (input : TDEEInput) : ℤ :=
  jround (10 * input.weight + 6.25 * input.height - 5 * input.age +
    (if input.gender = Gender.male then 5 else -161))

/-- `calculateTDEE`: TDEE = round(BMR × activity multiplier). -/
def calculateTDEE (input : TDEEInput) : TDEEResult :=
  let bmr := calculateBMR input
  let activityMultiplier := ACTIVITY_MULTIPLIERS input.activityLevel
  { bmr := bmr
    tdee := jround ((bmr : ℚ) * activityMultiplier)
    activityMultiplier := activityMultiplier }

/-! ## energy-balance.calculator (third document of
     src/src/rule-engine/calculators/tdee.calculator.spec.ts) -/

/-- `EnergyBalanceInput` -/
structure EnergyBalanceInput where
  tdee : ℚ
  goal : Goal
  weight : ℚ
deriving Repr

/-- `EnergyBalanceResult` -/
structure EnergyBalanceResult where
  targetCalories : ℤ
  deficit : ℤ
  deficitPercentage : ℚ
  weeklyWeightChangeKg : ℚ
deriving Repr

/-- `ENERGY_ADJUSTMENTS` min/max fractions per goal. -/
def ENERGY_ADJUSTMENTS : Goal → ℚ × ℚ
  | .weight_loss => (-0.25, -0.20)
  | .maintenance => (0, 0)
  | .muscle_gain => (0.08, 0.12)

/-- `MAX_ADJUSTMENTS.deficit` (energy-balance calculator). -/
def EB_MAX_DEFICIT : ℤ := 500

/-- `MAX_ADJUSTMENTS.surplus` (energy-balance calculator). -/
def EB_MAX_SURPLUS : ℤ := 300

/-- `calculateTargetCalories`: percentage adjustment, then absolute clamp. -/
def calculateTargetCalories (input : EnergyBalanceInput) : EnergyBalanceResult :=
  let adjustment := ENERGY_ADJUSTMENTS input.goal
  let deficitPercentage : ℚ :=
    match input.goal with
    | .weight_loss => adjustment.2
    | .muscle_gain => adjustment.1
    | .maintenance => 0
  let deficit0 := jround (input.tdee * deficitPercentage)
  let deficit : ℤ :=
    match input.goal with
    | .weight_loss => max deficit0 (-EB_MAX_DEFICIT)
    | .muscle_gain => min deficit0 EB_MAX_SURPLUS
    | .maintenance => deficit0
  let targetCalories := input.tdee + (deficit : ℚ)
  let weeklyDeficit : ℚ := (deficit : ℚ) * 7
  { targetCalories := jround targetCalories
    deficit := deficit
    deficitPercentage := deficitPercentage
    weeklyWeightChangeKg := roundTo2 (weeklyDeficit / 7700) }

/-- `adjustCalories`: deadband of 0.2 kg/week, then a ±200 kcal-clamped
    correction of `round(difference × 1100)`. -/
def adjustCalories (currentCalories : ℚ) (actualWeightChange : ℚ)
    (expectedWeightChange : ℚ) (_goal : Goal) : ℚ :=
  let difference := actualWeightChange - expectedWeightChange
  if |difference| < 0.2 then
    currentCalories
  else
    let calorieAdjustment : ℤ := jround (difference * 1100)
    let limitedAdjustment := max (-200) (min 200 calorieAdjustment)
    currentCalories + (limitedAdjustment : ℚ)

/-! ## macro.calculator (src/unnamed/part_008) -/

/-- `MacroInput` -/
structure MacroInput where
  weight : ℚ
  targetCalories : ℚ
  goal : Goal
  activityLevel : ActivityLevel
deriving Repr

/-- `MacroResult` -/
structure MacroResult where
  protein : ℤ
  fat : ℤ
  carbs : ℤ
  proteinCalories : ℤ
  fatCalories : ℤ
  carbsCalories : ℤ
deriving Repr

/-- `PROTEIN_RATIOS` (g per kg body weight), min/max per goal. -/
def PROTEIN_RATIOS : Goal → ℚ × ℚ
  | .weight_loss => (2.0, 2.4)
  | .maintenance => (1.8, 2.2)
  | .muscle_gain => (1.6, 2.2)

/-- `FAT_RATIOS` (g per kg body weight), min/max per goal. -/
def FAT_RATIOS : Goal → ℚ × ℚ
  | .weight_loss => (0.8, 1.0)
  | .maintenance => (0.8, 1.2)
  | .muscle_gain => (0.8, 1.0)

/-- `calculateProtein`: high end of the range for weight loss, midpoint otherwise. -/
def calculateProtein (weight : ℚ) (goal : Goal) : ℤ :=
  let ratio := PROTEIN_RATIOS goal
  let targetRatio := if goal = Goal.weight_loss then ratio.2 else (ratio.1 + ratio.2) / 2
  jround (weight * targetRatio)

/-- `calculateFat`: midpoint of the range. -/
def calculateFat (weight : ℚ) (goal : Goal) : ℤ :=
  let ratio := FAT_RATIOS goal
  let targetRatio := (ratio.1 + ratio.2) / 2
  jround (weight * targetRatio)

/-- `calculateCarbs`: remaining calories at 4 cal/g, floored at 0. -/
def calculateCarbs (targetCalories : ℚ) (proteinGrams fatGrams : ℤ) : ℤ :=
  let proteinCalories : ℤ := proteinGrams * 4
  let fatCalories : ℤ := fatGrams * 9
  let remainingCalories : ℚ := targetCalories - (proteinCalories : ℚ) - (fatCalories : ℚ)
  max 0 (jround (remainingCalories / 4))

/-- `calculateMacros` -/
def calculateMacros (input : MacroInput) : MacroResult :=
  let protein := calculateProtein input.weight input.goal
  let fat := calculateFat input.weight input.goal
  let carbs := calculateCarbs input.targetCalories protein fat
  { protein := protein
    fat := fat
    carbs := carbs
    proteinCalories := protein * 4
    fatCalories := fat * 9
    carbsCalories := carbs * 4 }

/-- `validateMacros`: macro calories within 5% of target. -/
def validateMacros (result : MacroResult) (targetCalories : ℚ) : Bool :=
  let totalCalories : ℤ := result.proteinCalories + result.fatCalories + result.carbsCalories
  let difference : ℚ := |(totalCalories : ℚ) - targetCalories|
  let tolerance : ℚ := targetCalories * 0.05
  difference ≤ tolerance

/-! ## safety.validator (second document of
     src/src/rule-engine/validators/adjustment.validator.ts) -/

/-- One tag per `violations.push` site of the safety validator. -/
inductive Violation
  | belowMinCalories
  | deficitExceeded
  | surplusExceeded
  | proteinBelowMin
  | weeklyLossExceeded
  | adjustmentTooLarge
  | newCaloriesBelowMin
deriving DecidableEq, Repr

/-- One tag per `warnings.push` site of the safety validator. -/
inductive SafetyWarning
  | proteinHigh
  | largeAdjustment
deriving DecidableEq, Repr

/-- `ValidationResult` -/
structure ValidationResult where
  isValid : Bool
  violations : List Violation
  warnings : List SafetyWarning
deriving Repr

/-- `MIN_CALORIES` per gender. -/
def MIN_CALORIES : Gender → ℚ
  | .male => 1500
  | .female => 1200

/-- `MAX_ADJUSTMENTS.deficit` (safety validator). -/
def SV_MAX_DEFICIT : ℚ := 500

/-- `MAX_ADJUSTMENTS.surplus` (safety validator). -/
def SV_MAX_SURPLUS : ℚ := 300

/-- `MAX_ADJUSTMENTS.weeklyWeightLoss` (fraction of body weight per week). -/
def SV_MAX_WEEKLY_LOSS : ℚ := 0.01

/-- `validateNutritionPlan`: the six ordered safety checks; `isValid` iff no
    violation was pushed. -/
def validateNutritionPlan (calories protein weight : ℚ) (gender : Gender)
    (tdee : ℚ) (goal : Goal) : ValidationResult :=
  let violations1 : List Violation :=
    if calories < MIN_CALORIES gender then [Violation.belowMinCalories] else []
  let violations2 : List Violation :=
    if goal = Goal.weight_loss ∧ tdee - calories > SV_MAX_DEFICIT then
      [Violation.deficitExceeded] else []
  let violations3 : List Violation :=
    if goal = Goal.muscle_gain ∧ calories - tdee > SV_MAX_SURPLUS then
      [Violation.surplusExceeded] else []
  let violations4 : List Violation :=
    if protein < weight * 1.6 then [Violation.proteinBelowMin] else []
  let warnings5 : List SafetyWarning :=
    if protein > weight * 3.0 then [SafetyWarning.proteinHigh] else []
  let violations6 : List Violation :=
    if goal = Goal.weight_loss ∧ (tdee - calories) * 7 / 7700 > weight * SV_MAX_WEEKLY_LOSS then
      [Violation.weeklyLossExceeded] else []
  let violations := violations1 ++ violations2 ++ violations3 ++ violations4 ++ violations6
  { isValid := violations.isEmpty
    violations := violations
    warnings := warnings5 }

/-- `validateAdjustment`: single-step change bound (±200 violation, 150–200
    warning) and post-adjustment floor. -/
def validateAdjustment (currentCalories newCalories : ℚ) (gender : Gender) :
    ValidationResult :=
  let adjustment := newCalories - currentCalories
  let violations1 : List Violation :=
    if |adjustment| > 200 then [Violation.adjustmentTooLarge] else []
  let violations2 : List Violation :=
    if newCalories < MIN_CALORIES gender then [Violation.newCaloriesBelowMin] else []
  let warnings3 : List SafetyWarning :=
    if 150 ≤ |adjustment| ∧ |adjustment| ≤ 200 then [SafetyWarning.largeAdjustment] else []
  let violations := violations1 ++ violations2
  { isValid := violations.isEmpty
    violations := violations
    warnings := warnings3 }

/-! ## adjustment.validator (first document of
     src/src/rule-engine/validators/adjustment.validator.ts) -/

/-- `pattern: 'too_fast' | 'too_slow' | 'stalled' | 'on_track' | 'reversed'` -/
inductive Pattern | too_fast | too_slow | stalled | on_track | reversed
deriving DecidableEq, Repr

/-- `ProgressData` -/
structure ProgressData where
  currentWeight : ℚ
  previousWeight : ℚ
  weeksSinceLastCheckin : ℚ
  goal : Goal
deriving Repr

/-- `AdjustmentRecommendation` (the free-text `reason` carries no numeric
    content and is omitted). -/
structure AdjustmentRecommendation where
  shouldAdjust : Bool
  recommendedCalorieChange : ℚ
  pattern : Pattern
deriving Repr

/-- `analyzeWeightLossProgress` -/
def analyzeWeightLossProgress (actualChange expectedChange : ℚ) :
    AdjustmentRecommendation :=
  if actualChange < expectedChange - 0.3 then
    let calorieIncrease := min 200 |(actualChange - expectedChange) * 1100|
    { shouldAdjust := true
      recommendedCalorieChange := (jround calorieIncrease : ℚ)
      pattern := .too_fast }
  else if actualChange > expectedChange + 0.3 then
    let calorieDecrease := min 200 |(actualChange - expectedChange) * 1100|
    { shouldAdjust := true
      recommendedCalorieChange := -(jround calorieDecrease : ℚ)
      pattern := .too_slow }
  else if actualChange ≥ 0 then
    { shouldAdjust := true, recommendedCalorieChange := -150, pattern := .reversed }
  else
    { shouldAdjust := false, recommendedCalorieChange := 0, pattern := .on_track }

/-- `analyzeMuscleGainProgress` -/
def analyzeMuscleGainProgress (actualChange expectedChange : ℚ) :
    AdjustmentRecommendation :=
  if actualChange > expectedChange + 0.3 then
    { shouldAdjust := true, recommendedCalorieChange := -100, pattern := .too_fast }
  else if actualChange < expectedChange - 0.2 then
    { shouldAdjust := true, recommendedCalorieChange := 150, pattern := .too_slow }
  else if actualChange ≤ -0.2 then
    { shouldAdjust := true, recommendedCalorieChange := 200, pattern := .reversed }
  else
    { shouldAdjust := false, recommendedCalorieChange := 0, pattern := .on_track }

/-- `analyzeMaintenanceProgress` -/
def analyzeMaintenanceProgress (actualChange : ℚ) : AdjustmentRecommendation :=
  if |actualChange| ≤ 0.3 then
    { shouldAdjust := false, recommendedCalorieChange := 0, pattern := .on_track }
  else if actualChange < -0.3 then
    { shouldAdjust := true, recommendedCalorieChange := 100, pattern := .too_fast }
  else
    { shouldAdjust := true, recommendedCalorieChange := -100, pattern := .too_slow }

/-- `analyzeProgress`: 0.2 kg/week deadband, then goal-specific branching. -/
def analyzeProgress (progressData : ProgressData) (expectedWeeklyChange : ℚ) :
    AdjustmentRecommendation :=
  let totalWeightChange := progressData.currentWeight - progressData.previousWeight
  let weeklyChange := totalWeightChange / progressData.weeksSinceLastCheckin
  let difference := |weeklyChange - expectedWeeklyChange|
  if difference ≤ 0.2 then
    { shouldAdjust := false, recommendedCalorieChange := 0, pattern := .on_track }
  else
    match progressData.goal with
    | .weight_loss => analyzeWeightLossProgress weeklyChange expectedWeeklyChange
    | .muscle_gain => analyzeMuscleGainProgress weeklyChange expectedWeeklyChange
    | .maintenance => analyzeMaintenanceProgress weeklyChange

/-- `detectStall`: fewer weights than the threshold is never a stall;
    otherwise a stall iff the spread of the weights is `< 0.3` kg.
    (`Math.max()`/`Math.min()` over the empty spread, reachable only with
    `threshold = 0`, gives `-∞ < 0.3`, i.e. `true`.) -/
def detectStall (recentWeights : List ℚ) (threshold : ℕ := 3) : Bool :=
  if recentWeights.length < threshold then
    false
  else
    match recentWeights with
    | [] => true
    | w :: ws =>
      let maxWeight := ws.foldl max w
      let minWeight := ws.foldl min w
      maxWeight - minWeight < 0.3

/-! ## adjustment engine (src/unnamed/part_009) -/

/-- `CheckInData` (`createdAt` as epoch milliseconds). -/
structure CheckInData where
  weight : ℚ
  createdAt : ℚ
  energyLevel : Option ℚ := none
  hungerLevel : Option ℚ := none
  stressLevel : Option ℚ := none
deriving Repr

/-- Stable insertion of a check-in into a list already sorted by descending
    `createdAt`. -/
def insertByRecent (c : CheckInData) : List CheckInData → List CheckInData
  | [] => [c]
  | d :: ds =>
    if d.createdAt < c.createdAt then c :: d :: ds
    else d :: insertByRecent c ds

/-- `sort((a, b) => b.createdAt.getTime() - a.createdAt.getTime())`:
    stable sort, most recent first. -/
def sortByRecent (checkIns : List CheckInData) : List CheckInData :=
  checkIns.foldl (fun acc c => insertByRecent c acc) []

/-- `trainingAdjustment: 'increase' | 'decrease' | 'maintain'` -/
inductive TrainingAdjustment | increase | decrease | maintain
deriving DecidableEq, Repr

/-- One tag per `warnings.push` site of the adjustment engine. -/
inductive EngineWarning
  | stalledProgress
  | lowEnergy
  | highHunger
  | highStress
deriving DecidableEq, Repr

/-- JS truthiness guard `x && x ⋈ k` on an optional rating. -/
def ratingFlag (rating : Option ℚ) (p : ℚ → Bool) : Bool :=
  match rating with
  | none => false
  | some v => if v = 0 then false else p v

/-- `AdjustmentAnalysis` (free-text `reason` omitted). -/
structure AdjustmentAnalysis where
  currentWeight : ℚ
  previousWeight : ℚ
  weightChange : ℚ
  weeklyWeightChange : ℚ
  pattern : Pattern
  isStalled : Bool
  shouldAdjustNutrition : Bool
  shouldAdjustTraining : Bool
  nutritionAdjustment : ℚ
  trainingAdjustment : TrainingAdjustment
  warnings : List EngineWarning
  subjectiveEnergy : Option ℚ
  subjectiveHunger : Option ℚ
  subjectiveStress : Option ℚ
deriving Repr

/-- `analyzeCheckInProgress`: `none` models the thrown `Error` for fewer than
    2 check-ins. -/
def analyzeCheckInProgress (recentCheckIns : List CheckInData)
    (expectedWeeklyChange : ℚ) (goal : Goal) (currentCalories : ℚ)
    (gender : Gender) : Option AdjustmentAnalysis :=
  match sortByRecent recentCheckIns with
  | [] => none
  | [_] => none
  | current :: previous :: _rest =>
    let sorted := sortByRecent recentCheckIns
    let timeDiff := current.createdAt - previous.createdAt
    let weeksSinceLastCheckin := timeDiff / (1000 * 60 * 60 * 24 * 7)
    let weightChange := current.weight - previous.weight
    let weeklyWeightChange := weightChange / weeksSinceLastCheckin
    let progressData : ProgressData :=
      { currentWeight := current.weight
        previousWeight := previous.weight
        weeksSinceLastCheckin := weeksSinceLastCheckin
        goal := goal }
    let recommendation := analyzeProgress progressData expectedWeeklyChange
    let recentWeights := (sorted.take 4).map CheckInData.weight
    let isStalled := detectStall recentWeights
    let finalAdjustment :=
      if recommendation.shouldAdjust ∧
          ¬(validateAdjustment currentCalories
              (currentCalories + recommendation.recommendedCalorieChange)
              gender).isValid then
        jsign recommendation.recommendedCalorieChange * 100
      else recommendation.recommendedCalorieChange
    let trainingAdjustment : TrainingAdjustment :=
      if isStalled ∧ goal = Goal.muscle_gain then .increase
      else if recommendation.pattern = Pattern.too_fast ∧ goal = Goal.weight_loss then .decrease
      else .maintain
    let warnings : List EngineWarning :=
      (if isStalled then [EngineWarning.stalledProgress] else []) ++
      (if ratingFlag current.energyLevel (fun v => v ≤ 2) then [EngineWarning.lowEnergy] else []) ++
      (if ratingFlag current.hungerLevel (fun v => v ≥ 4) then [EngineWarning.highHunger] else []) ++
      (if ratingFlag current.stressLevel (fun v => v ≥ 4) then [EngineWarning.highStress] else [])
    some
      { currentWeight := current.weight
        previousWeight := previous.weight
        weightChange := weightChange
        weeklyWeightChange := weeklyWeightChange
        pattern := recommendation.pattern
        isStalled := isStalled
        shouldAdjustNutrition := recommendation.shouldAdjust || isStalled
        shouldAdjustTraining := trainingAdjustment ≠ TrainingAdjustment.maintain
        nutritionAdjustment := finalAdjustment
        trainingAdjustment := trainingAdjustment
        warnings := warnings
        subjectiveEnergy := current.energyLevel
        subjectiveHunger := current.hungerLevel
        subjectiveStress := current.stressLevel }

/-! ## action-selector.service (src/src/engine/services/action-selector.service.ts)

The service reads constants from `rule-pack-v1.json`, which is imported from
outside this repository snapshot.  Modelled from the spec: the rule pack is a
versioned, immutable configuration value (minimum confidence for action,
sex-specific calorie floors, max deficit/surplus as percentages of TDEE)
threaded through the calls as an explicit parameter. -/

/-- Modelled from the spec: the fields of `rule-pack-v1.json` that the action
    selector reads (`trendAnalysis.minimumConfidenceForAction` and
    `safetyConstraints.calorieFloor/maxDeficitPercent/maxSurplusPercent`);
    the JSON file itself is not part of the source snapshot. -/
structure RulePackModel where
  minimumConfidenceForAction : ℚ
  calorieFloorMale : ℚ
  calorieFloorFemale : ℚ
  maxDeficitPercent : ℚ
  maxSurplusPercent : ℚ
deriving Repr

/-- `trend: 'decreasing' | 'stable' | 'increasing'` -/
inductive Trend | decreasing | stable | increasing
deriving DecidableEq, Repr

/-- `riskLevel: 'low' | 'moderate' | 'high' | 'critical'` -/
inductive RiskLevel | low | moderate | high | critical
deriving DecidableEq, Repr

/-- `UserContext` (action selector). -/
structure UserContext where
  currentCalories : ℚ
  tdee : ℚ
  weight : ℚ
  sex : String
  goal : String
deriving Repr

/-- The action selector's result (free-text `reasoning` omitted). -/
structure CalorieAction where
  adjustment : ℚ
  newCalories : ℚ
deriving Repr

/-- `applyGuardrails`: calorie floor, then max deficit and max surplus as
    percentages of TDEE. -/
def applyGuardrails (rp : RulePackModel) (targetCalories : ℚ)
    (userContext : UserContext) : ℚ :=
  let calorieFloor :=
    if userContext.sex = "male" then rp.calorieFloorMale else rp.calorieFloorFemale
  if targetCalories < calorieFloor then calorieFloor
  else
    let maxDeficitPercent := rp.maxDeficitPercent / 100
    let minCaloriesFromDeficit := userContext.tdee * (1 - maxDeficitPercent)
    if targetCalories < minCaloriesFromDeficit then (jround minCaloriesFromDeficit : ℚ)
    else
      let maxSurplusPercent := rp.maxSurplusPercent / 100
      let maxCaloriesFromSurplus := userContext.tdee * (1 + maxSurplusPercent)
      if targetCalories > maxCaloriesFromSurplus then (jround maxCaloriesFromSurplus : ℚ)
      else (jround targetCalories : ℚ)

/-- `selectCutAdjustment` -/
def selectCutAdjustment (rp : RulePackModel) (trend : Trend)
    (userContext : UserContext) : CalorieAction :=
  let adjustment : ℚ :=
    match trend with
    | .decreasing => 0
    | .stable => -100
    | .increasing => -150
  { adjustment := adjustment
    newCalories := applyGuardrails rp (userContext.currentCalories + adjustment) userContext }

/-- `selectGainAdjustment` -/
def selectGainAdjustment (rp : RulePackModel) (trend : Trend)
    (userContext : UserContext) : CalorieAction :=
  let adjustment : ℚ :=
    match trend with
    | .increasing => 0
    | .stable => 100
    | .decreasing => 150
  { adjustment := adjustment
    newCalories := applyGuardrails rp (userContext.currentCalories + adjustment) userContext }

/-- `selectCalorieAdjustment`: confidence gate, then critical-risk override,
    then high-risk override, then mode-family dispatch. -/
def selectCalorieAdjustment (rp : RulePackModel) (trend : Trend)
    (riskLevel : RiskLevel) (confidence : ℚ) (currentMode : String)
    (userContext : UserContext) : CalorieAction :=
  if confidence < rp.minimumConfidenceForAction then
    { adjustment := 0, newCalories := userContext.currentCalories }
  else if riskLevel = RiskLevel.critical then
    let adjustment : ℚ := 200
    { adjustment := adjustment
      newCalories := applyGuardrails rp (userContext.currentCalories + adjustment) userContext }
  else if riskLevel = RiskLevel.high then
    let adjustment : ℚ := if trend = Trend.decreasing then 100 else 0
    { adjustment := adjustment
      newCalories := applyGuardrails rp (userContext.currentCalories + adjustment) userContext }
  else if currentMode.startsWith "CUT" then
    selectCutAdjustment rp trend userContext
  else if currentMode.startsWith "GAIN" then
    selectGainAdjustment rp trend userContext
  else
    { adjustment := 0, newCalories := userContext.currentCalories }

/-! ## PlanBuilderService.calculateTDEE (src/unnamed/part_012) -/

namespace PlanBuilderService

/-- `PlanBuilderService.calculateTDEE`: Mifflin-St Jeor BMR (unrounded), then
    a hard-coded 1.55 multiplier; the `activityLevel` parameter is accepted
    but never read. -/
def calculateTDEE (weight height age : ℚ) (sex : String)
    (_activityLevel : String) : ℤ :=
  let bmr : ℚ :=
    if sex = "male" then 10 * weight + 6.25 * height - 5 * age + 5
    else 10 * weight + 6.25 * height - 5 * age - 161
  jround (bmr * 1.55)

end PlanBuilderService

/-- Specification shorthand: the recommendation `analyzeCheckInProgress`
    derives from the two most recent check-ins (the inline `progressData`
    of src/unnamed/part_009). -/
def checkInRecommendation (current previous : CheckInData)
    (expectedWeeklyChange : ℚ) (goal : Goal) : AdjustmentRecommendation :=
  analyzeProgress
    { currentWeight := current.weight
      previousWeight := previous.weight
      weeksSinceLastCheckin :=
        (current.createdAt - previous.createdAt) / (1000 * 60 * 60 * 24 * 7)
      goal := goal } expectedWeeklyChange

end PrimeCell

namespace PrimeCell

/-! ## Helper lemmas -/

theorem jround_intCast (k : ℤ) : jround (k : ℚ) = k := by
  unfold jround
  rw [Int.floor_int_add]
  norm_num

theorem jround_le (q : ℚ) : (jround q : ℚ) ≤ q + 1/2 := by
  unfold jround
  exact Int.floor_le _

theorem lt_jround (q : ℚ) : q - 1/2 < (jround q : ℚ) := by
  unfold jround
  have := Int.sub_one_lt_floor (q + 1/2)
  linarith

theorem jround_nonneg {q : ℚ} (h : 0 ≤ q) : 0 ≤ jround q := by
  unfold jround
  positivity

/-- In every branch of `analyzeProgress`, `shouldAdjust = false` comes with a
    zero recommended change. -/
theorem analyzeProgress_change_zero_of_not_shouldAdjust (pd : ProgressData)
    (e : ℚ) (h : (analyzeProgress pd e).shouldAdjust = false) :
    (analyzeProgress pd e).recommendedCalorieChange = 0 := by
  unfold analyzeProgress analyzeWeightLossProgress analyzeMuscleGainProgress
    analyzeMaintenanceProgress at *
  rcases pd with ⟨cw, pw, wk, goal⟩
  cases goal <;> simp only at h ⊢ <;> split_ifs at h ⊢ <;> simp_all

/-- Rounding a sum of two integers cast to ℚ is exact. -/
theorem jround_int_add (t D : ℤ) : jround ((t : ℚ) + (D : ℚ)) = t + D := by
  rw [show ((t : ℚ) + (D : ℚ)) = ((t + D : ℤ) : ℚ) by push_cast; ring, jround_intCast]

/-- The adjustment engine's final-adjustment selection: when the proposed
    step fails `validateAdjustment`, the result is `sign × 100` (also in the
    no-adjustment case, where the recommendation is 0 and `sign 0 × 100 = 0`). -/
theorem finalAdjustment_clamp (rec : AdjustmentRecommendation) (c : ℚ) (g : Gender)
    (hrec0 : rec.shouldAdjust = false → rec.recommendedCalorieChange = 0)
    (hv : (validateAdjustment c (c + rec.recommendedCalorieChange) g).isValid = false) :
    (if rec.shouldAdjust ∧
        ¬(validateAdjustment c (c + rec.recommendedCalorieChange) g).isValid then
      jsign rec.recommendedCalorieChange * 100
    else rec.recommendedCalorieChange) = jsign rec.recommendedCalorieChange * 100 := by
  by_cases hsa : rec.shouldAdjust = true
  · rw [if_pos ⟨hsa, by simp [hv]⟩]
  · rw [if_neg (fun h => hsa h.1)]
    rw [hrec0 (Bool.not_eq_true _ ▸ hsa)]
    unfold jsign
    norm_num

end PrimeCell

open PrimeCell

/-! ## Claims -/

/-- C1 (amended): for every integer TDEE > 0 and any weight > 0,
    `calculateTargetCalories` keeps the weight-loss deficit (TDEE minus
    target calories) at or below 500 kcal/day and the muscle-gain surplus at
    or below 300 kcal/day, and at TDEE = 2759 the weight-loss target is
    exactly 2259 kcal. -/
theorem calculateTargetCalories_caps (n : ℤ) (w : ℚ) (_hn : 0 < n) (_hw : 0 < w) :
    ((n : ℚ) - ((calculateTargetCalories ⟨(n : ℚ), Goal.weight_loss, w⟩).targetCalories : ℚ) ≤ 500) ∧
    (((calculateTargetCalories ⟨(n : ℚ), Goal.muscle_gain, w⟩).targetCalories : ℚ) - (n : ℚ) ≤ 300) ∧
    (calculateTargetCalories ⟨2759, Goal.weight_loss, w⟩).targetCalories = 2259 := by
  refine ⟨?_, ?_, ?_⟩
  · have h2 : (calculateTargetCalories ⟨(n : ℚ), Goal.weight_loss, w⟩).targetCalories =
        jround ((n : ℚ) + ((max (jround ((n : ℚ) * (-0.20))) (-500) : ℤ) : ℚ)) := rfl
    rw [h2, jround_int_add]
    have hd : (-500 : ℤ) ≤ max (jround ((n : ℚ) * (-0.20))) (-500) := le_max_right _ _
    have hd' : ((-500 : ℤ) : ℚ) ≤ ((max (jround ((n : ℚ) * (-0.20))) (-500) : ℤ) : ℚ) :=
      Int.cast_le.mpr hd
    push_cast at hd' ⊢
    linarith
  · have h2 : (calculateTargetCalories ⟨(n : ℚ), Goal.muscle_gain, w⟩).targetCalories =
        jround ((n : ℚ) + ((min (jround ((n : ℚ) * 0.08)) 300 : ℤ) : ℚ)) := rfl
    rw [h2, jround_int_add]
    have hd : min (jround ((n : ℚ) * 0.08)) 300 ≤ (300 : ℤ) := min_le_right _ _
    have hd' : ((min (jround ((n : ℚ) * 0.08)) 300 : ℤ) : ℚ) ≤ ((300 : ℤ) : ℚ) :=
      Int.cast_le.mpr hd
    push_cast at hd' ⊢
    linarith
  · have h2 : (calculateTargetCalories ⟨(2759 : ℚ), Goal.weight_loss, w⟩).targetCalories =
        jround ((2759 : ℚ) + ((max (jround ((2759 : ℚ) * (-0.20))) (-500) : ℤ) : ℚ)) := rfl
    have hin : jround ((2759 : ℚ) * (-0.20)) = -552 := by unfold jround; norm_num
    rw [h2, hin, show max (-552 : ℤ) (-500) = -500 from by decide]
    unfold jround
    norm_num

/-- Counterexample to C1 as stated: at the non-integer TDEE 2760.4 (weight
    80, goal weight_loss) the final rounding leaves a deficit of 500.4
    kcal/day, exceeding the 500 kcal cap. -/
theorem calculateTargetCalories_caps_counterexample :
    500 < (2760.4 : ℚ) -
      ((calculateTargetCalories ⟨2760.4, Goal.weight_loss, 80⟩).targetCalories : ℚ) := by
  have h2 : (calculateTargetCalories ⟨(2760.4 : ℚ), Goal.weight_loss, 80⟩).targetCalories =
      jround ((2760.4 : ℚ) + ((max (jround ((2760.4 : ℚ) * (-0.20))) (-500) : ℤ) : ℚ)) := rfl
  have hin : jround ((2760.4 : ℚ) * (-0.20)) = -552 := by unfold jround; norm_num
  rw [h2, hin, show max (-552 : ℤ) (-500) = -500 from by decide]
  unfold jround
  norm_num

/-- Witness for C1 (amended) at TDEE = 2759, weight 80. -/
theorem calculateTargetCalories_caps_witness :
    ((2759 : ℚ) - ((calculateTargetCalories ⟨(2759 : ℚ), Goal.weight_loss, 80⟩).targetCalories : ℚ) ≤ 500) ∧
    (((calculateTargetCalories ⟨(2759 : ℚ), Goal.muscle_gain, 80⟩).targetCalories : ℚ) - (2759 : ℚ) ≤ 300) ∧
    (calculateTargetCalories ⟨2759, Goal.weight_loss, 80⟩).targetCalories = 2259 := by
  have := calculateTargetCalories_caps 2759 80 (by norm_num) (by norm_num)
  simpa using this

/-- C2: `validateNutritionPlan` flags calories below the sex-specific floor
    (1500 male / 1200 female) with a violation and an invalid result, and a
    valid result implies calories at or above the floor, for every input. -/
theorem validateNutritionPlan_calorie_floor (calories protein weight : ℚ)
    (gender : Gender) (tdee : ℚ) (goal : Goal) :
    ((validateNutritionPlan calories protein weight gender tdee goal).isValid = true →
      MIN_CALORIES gender ≤ calories) ∧
    (calories < MIN_CALORIES gender →
      Violation.belowMinCalories ∈
        (validateNutritionPlan calories protein weight gender tdee goal).violations ∧
      (validateNutritionPlan calories protein weight gender tdee goal).isValid = false) := by
  by_cases hc : calories < MIN_CALORIES gender
  · constructor
    · intro hv
      exfalso
      simp [validateNutritionPlan, hc] at hv
    · intro _
      simp [validateNutritionPlan, hc]
  · exact ⟨fun _ => not_lt.mp hc, fun h => absurd h hc⟩

/-- Witness for C2: the floor violation fires at 1000 kcal for a male plan,
    and a valid 2000 kcal male plan indeed sits above the 1500 kcal floor. -/
theorem validateNutritionPlan_calorie_floor_witness :
    (Violation.belowMinCalories ∈
        (validateNutritionPlan 1000 200 80 Gender.male 2000 Goal.maintenance).violations ∧
      (validateNutritionPlan 1000 200 80 Gender.male 2000 Goal.maintenance).isValid = false) ∧
    MIN_CALORIES Gender.male ≤ 2000 := by
  refine ⟨(validateNutritionPlan_calorie_floor 1000 200 80 Gender.male 2000 Goal.maintenance).2
      (by norm_num [MIN_CALORIES]),
    (validateNutritionPlan_calorie_floor 2000 150 80 Gender.male 2400 Goal.maintenance).1 ?_⟩
  norm_num [validateNutritionPlan, MIN_CALORIES, SV_MAX_DEFICIT, SV_MAX_SURPLUS,
    SV_MAX_WEEKLY_LOSS]

/-- C3 (amended): carbohydrate grams are never negative for every valid
    input, and the macro calories reconstruct to within 5% of the target
    whenever the target is at least 40 kcal and covers the weight-based
    protein and fat calories. -/
theorem calculateMacros_carbs_and_tolerance (w t : ℚ) (goal : Goal)
    (lvl : ActivityLevel) (_hw : 0 < w) (_ht : 0 < t) :
    0 ≤ (calculateMacros ⟨w, t, goal, lvl⟩).carbs ∧
    (40 ≤ t →
      ((calculateProtein w goal * 4 + calculateFat w goal * 9 : ℤ) : ℚ) ≤ t →
      validateMacros (calculateMacros ⟨w, t, goal, lvl⟩) t = true) := by
  constructor
  · exact le_max_left 0 _
  · intro h40 hcov
    set p := calculateProtein w goal with hp
    set f := calculateFat w goal with hf
    set r : ℚ := t - ((p * 4 : ℤ) : ℚ) - ((f * 9 : ℤ) : ℚ) with hr
    have hr0 : 0 ≤ r := by
      rw [hr]
      push_cast at hcov ⊢
      linarith
    have hj0 : 0 ≤ jround (r / 4) := jround_nonneg (by positivity)
    have hcarbs : (calculateMacros ⟨w, t, goal, lvl⟩).carbs = jround (r / 4) := by
      show max 0 (jround (r / 4)) = jround (r / 4)
      exact max_eq_right hj0
    have hub : ((jround (r / 4) : ℤ) : ℚ) ≤ r / 4 + 1/2 := jround_le _
    have hlb : r / 4 - 1/2 < ((jround (r / 4) : ℤ) : ℚ) := lt_jround _
    have htotal : ((calculateMacros ⟨w, t, goal, lvl⟩).proteinCalories +
        (calculateMacros ⟨w, t, goal, lvl⟩).fatCalories +
        (calculateMacros ⟨w, t, goal, lvl⟩).carbsCalories : ℤ) =
        p * 4 + f * 9 + jround (r / 4) * 4 := by
      show p * 4 + f * 9 + max 0 (jround (r / 4)) * 4 = _
      rw [max_eq_right hj0]
    unfold validateMacros
    rw [htotal, decide_eq_true_eq, abs_le]
    push_cast at hub hlb hr ⊢
    rw [show (5e-2 : ℚ) = 1 / 20 from by norm_num]
    clear_value p f r
    constructor <;> linarith

/-- Counterexample to C3 as stated: at weight 100 kg, target 1500 kcal, goal
    weight_loss (a valid triple, used by the code's own test), protein and
    fat calories alone are 1770 kcal, so `validateMacros` fails even though
    carbs are floored at 0. -/
theorem calculateMacros_tolerance_counterexample :
    validateMacros (calculateMacros ⟨100, 1500, Goal.weight_loss, ActivityLevel.sedentary⟩)
      1500 = false := by
  have hp : calculateProtein 100 Goal.weight_loss = 240 := by
    unfold calculateProtein PROTEIN_RATIOS jround
    norm_num
  have hf : calculateFat 100 Goal.weight_loss = 90 := by
    unfold calculateFat FAT_RATIOS jround
    norm_num
  have hc : calculateCarbs 1500 240 90 = 0 := by
    show max 0 (jround (((1500 : ℚ) - ((240 * 4 : ℤ) : ℚ) - ((90 * 9 : ℤ) : ℚ)) / 4)) = 0
    rw [show jround (((1500 : ℚ) - ((240 * 4 : ℤ) : ℚ) - ((90 * 9 : ℤ) : ℚ)) / 4) = -67 from by
      unfold jround; norm_num]
    decide
  simp only [calculateMacros, validateMacros, hp, hf]
  rw [hc, decide_eq_false_iff_not]
  intro habs
  rw [abs_le] at habs
  have := habs.2
  push_cast at this
  norm_num at this

/-- Witness for C3 (amended) at weight 80 kg, target 2000 kcal, weight_loss. -/
theorem calculateMacros_carbs_and_tolerance_witness :
    0 ≤ (calculateMacros ⟨80, 2000, Goal.weight_loss, ActivityLevel.moderate⟩).carbs ∧
    validateMacros (calculateMacros ⟨80, 2000, Goal.weight_loss, ActivityLevel.moderate⟩)
      2000 = true := by
  have h := calculateMacros_carbs_and_tolerance 80 2000 Goal.weight_loss
    ActivityLevel.moderate (by norm_num) (by norm_num)
  refine ⟨h.1, h.2 (by norm_num) ?_⟩
  rw [show calculateProtein 80 Goal.weight_loss = 192 from by
      unfold calculateProtein PROTEIN_RATIOS jround; norm_num,
    show calculateFat 80 Goal.weight_loss = 72 from by
      unfold calculateFat FAT_RATIOS jround; norm_num]
  norm_num

/-- C4 (amended): for the weight_loss goal, whenever the actual weekly change
    is nonnegative and differs from the expected change by more than 0.2 but
    at most 0.3 kg/week (so neither the deadband nor the too_fast/too_slow
    branches apply), `analyzeProgress` reports pattern reversed with a fixed
    −150 kcal recommendation. -/
theorem analyzeProgress_weight_loss_reversed (pd : ProgressData) (expected : ℚ)
    (hgoal : pd.goal = Goal.weight_loss)
    (hout : 0.2 < |(pd.currentWeight - pd.previousWeight) / pd.weeksSinceLastCheckin - expected|)
    (hnear : |(pd.currentWeight - pd.previousWeight) / pd.weeksSinceLastCheckin - expected| ≤ 0.3)
    (hpos : 0 ≤ (pd.currentWeight - pd.previousWeight) / pd.weeksSinceLastCheckin) :
    (analyzeProgress pd expected).pattern = Pattern.reversed ∧
    (analyzeProgress pd expected).recommendedCalorieChange = -150 := by
  obtain ⟨hlo, hhi⟩ := abs_le.mp hnear
  simp only [analyzeProgress, analyzeWeightLossProgress, hgoal]
  split_ifs with h1 h2 h3
  · exact absurd h1 (not_le.mpr hout)
  · exact absurd h2 (not_lt.mpr (by linarith))
  · exact absurd h3 (not_lt.mpr (by linarith))
  · exact ⟨rfl, rfl⟩

/-- Counterexample to C4 as stated: with a weight gain of 0.5 kg/week against
    an expected −0.5 kg/week (so actual ≥ 0 and |actual − expected| > 0.2),
    the too_slow branch fires first: pattern too_slow with −200 kcal, not
    reversed with −150 kcal. -/
theorem analyzeProgress_weight_loss_reversed_counterexample :
    (analyzeProgress ⟨80.5, 80, 1, Goal.weight_loss⟩ (-0.5)).pattern = Pattern.too_slow ∧
    (analyzeProgress ⟨80.5, 80, 1, Goal.weight_loss⟩ (-0.5)).recommendedCalorieChange = -200 := by
  have hwc : ((80.5 : ℚ) - 80) / 1 - (-0.5) = 1 := by norm_num
  simp only [analyzeProgress, analyzeWeightLossProgress]
  rw [if_neg (by rw [hwc]; rw [abs_of_nonneg] <;> norm_num),
    if_neg (by norm_num),
    if_pos (by norm_num)]
  refine ⟨rfl, ?_⟩
  rw [hwc, abs_of_nonneg (by norm_num : (0:ℚ) ≤ 1 * 1100),
    show min (200 : ℚ) (1 * 1100) = 200 from by norm_num,
    show jround (200 : ℚ) = 200 from by unfold jround; norm_num]
  norm_num

/-- Witness for C4 (amended): stable weight (80 → 80 over one week) against
    an expected −0.25 kg/week. -/
theorem analyzeProgress_weight_loss_reversed_witness :
    (analyzeProgress ⟨80, 80, 1, Goal.weight_loss⟩ (-0.25)).pattern = Pattern.reversed ∧
    (analyzeProgress ⟨80, 80, 1, Goal.weight_loss⟩ (-0.25)).recommendedCalorieChange = -150 := by
  have h : ((80 : ℚ) - 80) / 1 - (-0.25) = 0.25 := by norm_num
  exact analyzeProgress_weight_loss_reversed ⟨80, 80, 1, Goal.weight_loss⟩ (-0.25) rfl
    (by rw [h]; rw [abs_of_nonneg] <;> norm_num)
    (by rw [h]; rw [abs_of_nonneg] <;> norm_num)
    (by norm_num)

/-- C6: `adjustCalories` is the identity whenever the actual weekly change is
    within 0.2 kg/week of the expected weekly change, for every current
    calorie value and every goal. -/
theorem adjustCalories_deadband_identity (currentCalories actual expected : ℚ)
    (goal : Goal) (h : |actual - expected| < 0.2) :
    adjustCalories currentCalories actual expected goal = currentCalories := by
  unfold adjustCalories
  rw [if_pos h]

/-- Witness for C6 at a concrete input inside the deadband. -/
theorem adjustCalories_deadband_identity_witness :
    adjustCalories 2200 (-0.7) (-0.6) Goal.weight_loss = 2200 :=
  adjustCalories_deadband_identity 2200 (-0.7) (-0.6) Goal.weight_loss
    (by rw [abs_lt]; constructor <;> norm_num)

/-- C10: with its default threshold of 3, `detectStall` returns `false` on
    every list of fewer than 3 weights, however close they are. -/
theorem detectStall_short_list_false (recentWeights : List ℚ)
    (h : recentWeights.length < 3) : detectStall recentWeights = false := by
  unfold detectStall
  rw [if_pos h]

/-- Witness for C10: two identical weights are never reported as a stall. -/
theorem detectStall_short_list_false_witness : detectStall [80, 80] = false :=
  detectStall_short_list_false [80, 80] (by simp)

/-- C7: with at least 2 check-ins, whenever the recommended calorie change of
    the progress analysis fails `validateAdjustment` (step above ±200 kcal or
    resulting calories below the sex floor), `analyzeCheckInProgress` returns
    `sign(recommendation) × 100` as the nutrition adjustment — clamped to
    ±100 kcal in the recommended direction, never discarded. -/
theorem analyzeCheckInProgress_clamps_unsafe (checkIns : List CheckInData)
    (expected : ℚ) (goal : Goal) (currentCalories : ℚ) (gender : Gender)
    (current previous : CheckInData) (rest : List CheckInData)
    (hs : sortByRecent checkIns = current :: previous :: rest)
    (hv : (validateAdjustment currentCalories
        (currentCalories +
          (checkInRecommendation current previous expected goal).recommendedCalorieChange)
        gender).isValid = false) :
    (analyzeCheckInProgress checkIns expected goal currentCalories gender).map
        AdjustmentAnalysis.nutritionAdjustment =
      some (jsign
        (checkInRecommendation current previous expected goal).recommendedCalorieChange
        * 100) := by
  unfold checkInRecommendation at hv ⊢
  unfold analyzeCheckInProgress
  rw [hs]
  dsimp only [Option.map_some']
  exact congrArg some (finalAdjustment_clamp _ _ _
    (analyzeProgress_change_zero_of_not_shouldAdjust _ _) hv)

/-- Witness for C7: two check-ins a week apart with stable weight at 80 kg
    under a weight-loss expectation of −0.5 kg/week recommend −200 kcal; at
    1000 current calories that step is unsafe (800 < the 1500 male floor), so
    the engine returns −100. -/
theorem analyzeCheckInProgress_clamps_unsafe_witness :
    (analyzeCheckInProgress [⟨80, 604800000, none, none, none⟩, ⟨80, 0, none, none, none⟩]
        (-0.5) Goal.weight_loss 1000 Gender.male).map
        AdjustmentAnalysis.nutritionAdjustment = some (-100) := by
  have hs : sortByRecent
      [(⟨80, 604800000, none, none, none⟩ : CheckInData), ⟨80, 0, none, none, none⟩] =
      ⟨80, 604800000, none, none, none⟩ :: ⟨80, 0, none, none, none⟩ :: [] := by
    unfold sortByRecent insertByRecent
    norm_num
    rfl
  have hrec : (checkInRecommendation ⟨80, 604800000, none, none, none⟩
      ⟨80, 0, none, none, none⟩ (-0.5) Goal.weight_loss).recommendedCalorieChange = -200 := by
    unfold checkInRecommendation
    simp only [analyzeProgress, analyzeWeightLossProgress]
    rw [if_neg (by
        rw [show ((80:ℚ) - 80) / (((604800000:ℚ) - 0) / (1000 * 60 * 60 * 24 * 7)) - (-0.5)
          = 0.5 from by norm_num]
        rw [abs_of_nonneg] <;> norm_num),
      if_neg (by norm_num), if_pos (by norm_num)]
    rw [show ((80:ℚ) - 80) / (((604800000:ℚ) - 0) / (1000 * 60 * 60 * 24 * 7)) - (-0.5)
      = 0.5 from by norm_num]
    rw [abs_of_nonneg (by norm_num : (0:ℚ) ≤ 0.5 * 1100),
      show min (200 : ℚ) (0.5 * 1100) = 200 from by norm_num,
      show jround (200 : ℚ) = 200 from by unfold jround; norm_num]
    norm_num
  have hv : (validateAdjustment 1000
      (1000 + (checkInRecommendation ⟨80, 604800000, none, none, none⟩
        ⟨80, 0, none, none, none⟩ (-0.5) Goal.weight_loss).recommendedCalorieChange)
      Gender.male).isValid = false := by
    rw [hrec]
    have hadj : |(1000 : ℚ) + -200 - 1000| = 200 := by
      rw [show (1000 : ℚ) + -200 - 1000 = -200 from by norm_num, abs_neg,
        abs_of_nonneg (by norm_num : (0:ℚ) ≤ 200)]
    norm_num [validateAdjustment, MIN_CALORIES, hadj]
  have h := analyzeCheckInProgress_clamps_unsafe
    [⟨80, 604800000, none, none, none⟩, ⟨80, 0, none, none, none⟩] (-0.5) Goal.weight_loss
    1000 Gender.male ⟨80, 604800000, none, none, none⟩ ⟨80, 0, none, none, none⟩ [] hs hv
  rw [h, hrec]
  rw [show jsign (-200) = -1 from by unfold jsign; norm_num]
  norm_num

/-- C8: with its default threshold of 3, `detectStall` returns `true` on every
    list of four weights whose spread is below 0.3 kg; the progress pattern is
    not an input of `detectStall`, so the result is independent of it. -/
theorem detectStall_four_close_weights (a b c d : ℚ)
    (h : max (max (max a b) c) d - min (min (min a b) c) d < 0.3) :
    detectStall [a, b, c, d] = true := by
  unfold detectStall
  simp only [List.length_cons, List.length_nil, List.foldl]
  rw [if_neg (by omega)]
  simpa using h

/-- Witness for C8 with four concrete weights spanning 0.2 kg. -/
theorem detectStall_four_close_weights_witness :
    detectStall [80, 80.2, 80.1, 80] = true :=
  detectStall_four_close_weights 80 80.2 80.1 80 (by norm_num)

/-- C5: whenever confidence reaches the rule pack's minimum confidence for
    action, a critical risk level forces a +200 kcal adjustment, for every
    rule pack, trend, mode and user context. -/
theorem selectCalorieAdjustment_critical_override (rp : RulePackModel)
    (trend : Trend) (confidence : ℚ) (currentMode : String)
    (userContext : UserContext)
    (h : rp.minimumConfidenceForAction ≤ confidence) :
    (selectCalorieAdjustment rp trend RiskLevel.critical confidence currentMode
      userContext).adjustment = 200 := by
  unfold selectCalorieAdjustment
  rw [if_neg (not_lt.mpr h), if_pos rfl]

/-- Witness for C5 at a concrete rule pack and context. -/
theorem selectCalorieAdjustment_critical_override_witness :
    (selectCalorieAdjustment ⟨0.6, 1500, 1200, 25, 10⟩ Trend.increasing
      RiskLevel.critical 0.8 "CUT_ACTIVE" ⟨2000, 2500, 80, "male", "weight_loss"⟩).adjustment
      = 200 :=
  selectCalorieAdjustment_critical_override ⟨0.6, 1500, 1200, 25, 10⟩
    Trend.increasing 0.8 "CUT_ACTIVE" ⟨2000, 2500, 80, "male", "weight_loss"⟩
    (by norm_num)

/-- C9: `PlanBuilderService.calculateTDEE` never reads its activity-level
    argument and always equals `round(BMR × 1.55)` on the unrounded
    Mifflin-St Jeor BMR; in particular it disagrees with the five-level
    `calculateTDEE` of the TDEE calculator on a sedentary input. -/
theorem planBuilder_calculateTDEE_ignores_activity :
    (∀ (w h a : ℚ) (s lvl₁ lvl₂ : String),
      PlanBuilderService.calculateTDEE w h a s lvl₁ =
        PlanBuilderService.calculateTDEE w h a s lvl₂) ∧
    (∀ (w h a : ℚ) (s lvl : String),
      PlanBuilderService.calculateTDEE w h a s lvl =
        jround ((10 * w + 6.25 * h - 5 * a + (if s = "male" then 5 else -161)) * 1.55)) ∧
    PlanBuilderService.calculateTDEE 70 175 28 "male" "sedentary" ≠
      (calculateTDEE ⟨70, 175, 28, Gender.male, ActivityLevel.sedentary⟩).tdee := by
  refine ⟨fun w h a s lvl₁ lvl₂ => rfl, fun w h a s lvl => ?_, ?_⟩
  · unfold PlanBuilderService.calculateTDEE
    split_ifs <;> ring_nf
  · unfold PlanBuilderService.calculateTDEE calculateTDEE calculateBMR
      ACTIVITY_MULTIPLIERS jround
    norm_num
